import Mathlib

/-!
Verification of the `@mgcmnd/auth-client` session manager.

The development embeds the client-side authentication state machine of the
repository into Lean:

* `decodeAndSetToken`, `handleCallback`, `logout` and the mount-time restore
  effect embed `src/src/AuthContext.tsx` (the component exported by the
  package index and documented by the current README);
* `saveTokenAndUser` embeds `src/src/useAuthCoreState.ts` (the modular draft
  of the same session store, whose duplicate-token guard is a ref);
* the external `jwt-decode` library is represented by an explicit decoder
  parameter `decode : String → Option JwtPayload` (the library throws
  exactly when the string is not a structurally valid token, and never
  inspects individual claims).

Browser storage is made explicit: `localToken` is the value stored in
`localStorage` under the configured token key, `oauthState` the value in
`sessionStorage` under the CSRF-state key.  Side-effect callbacks
(`onLoginSuccess`, `onLogoutSuccess`) are counted.
-/

namespace AuthClient

/-- JavaScript truthiness of a nullable string: `null`/`undefined` and the
empty string are falsy (`if (token)`, `if (error)` in the source). -/
def truthy : Option String → Bool
  | none => false
  | some s => !s.isEmpty

/-- JavaScript `a || b` on nullable strings: returns `b` when `a` is
`null`/`undefined` or the empty string. -/
def jsOr (a b : Option String) : Option String :=
  match a with
  | none => b
  | some s => if s.isEmpty then b else some s

/-- Decoded token payload as delivered by `jwt-decode`: the standard `sub`
claim, a possible top-level `id` claim, the well-known optional claims, plus
any further string-valued claims. -/
structure JwtPayload where
  sub : Option String
  id : Option String
  email : Option String
  name : Option String
  picture : Option String
  extra : List (String × String)
deriving DecidableEq, Repr

/-- The `AuthUser` shape of `src/src/AuthContext.tsx`: `id`, the well-known optional
fields, and the remaining claims carried through from the payload.  The
`sub` field records whether a `sub` claim was spread into the object. -/
structure AuthUser where
  id : Option String
  sub : Option String
  email : Option String
  name : Option String
  picture : Option String
  extra : List (String × String)
deriving DecidableEq, Repr

/-- The `AuthState` record of `src/src/AuthContext.tsx`. -/
structure AuthState where
  isAuthenticated : Bool
  user : Option AuthUser
  isLoading : Bool
  error : Option String
  token : Option String
deriving DecidableEq, Repr

/-- In-memory React state plus the two browser storage cells and counters
for the configured side-effect callbacks. -/
structure World where
  state : AuthState
  localToken : Option String
  oauthState : Option String
  loginSuccessCount : Nat
  logoutSuccessCount : Nat
deriving DecidableEq, Repr

/-- The initial `useState` value in `src/src/AuthContext.tsx` (lines 52-58):
unauthenticated, not loading, no error, no token. -/
def initialAuthState : AuthState :=
  { isAuthenticated := false, user := none, isLoading := false
    error := none, token := none }

/-- Fresh page with empty storages and no side effects performed yet. -/
def initialWorld : World :=
  { state := initialAuthState, localToken := none, oauthState := none
    loginSuccessCount := 0, logoutSuccessCount := 0 }

/-- The user object built in `decodeAndSetToken` (AuthContext.tsx 79-85):
`\x7b id: decoded.sub || decoded.id, email, name, picture, ...decoded \x7d`.
Because the spread `...decoded` comes last, a top-level `id` claim in the
payload overwrites the `decoded.sub || decoded.id` value. -/
def mkUserFromPayload (p : JwtPayload) : AuthUser :=
  { id := if p.id.isSome then p.id else jsOr p.sub p.id
    sub := p.sub
    email := p.email
    name := p.name
    picture := p.picture
    extra := p.extra }

/-- Embedding of `decodeAndSetToken` from `src/src/AuthContext.tsx` (lines 71-107).
Guard: the call is a no-op when the token equals the active session token
and the session is authenticated.  On decode success the token is persisted,
the full authenticated state is set, and `onLoginSuccess` runs unless
`skipCallback`.  On decode failure only `isLoading`/`error` change. -/
def decodeAndSetToken (decode : String → Option JwtPayload) (token : String)
    (skipCallback : Bool) (w : World) : World :=
  if w.state.token = some token ∧ w.state.isAuthenticated = true then w
  else
    match decode token with
    | some payload =>
      let user := mkUserFromPayload payload
      let w1 : World :=
        { w with
          localToken := some token
          state :=
            { isAuthenticated := true, user := some user, isLoading := false
              error := none, token := some token } }
      if skipCallback then w1
      else { w1 with loginSuccessCount := w1.loginSuccessCount + 1 }
    | none =>
      { w with
        state := { w.state with
                   isLoading := false
                   error := some "Invalid token format" } }

/-- The mount effect of `src/src/AuthContext.tsx` (lines 110-116): read the
persisted token; when truthy, materialize from it with `skipCallback = true`
(passive restore); otherwise do nothing. -/
def restore (decode : String → Option JwtPayload) (w : World) : World :=
  match w.localToken with
  | some t => if t.isEmpty then w else decodeAndSetToken decode t true w
  | none => w

/-- Embedding of `logout` from `src/src/AuthContext.tsx` (lines 166-180): remove the
persisted token, reset the state to the canonical empty shape, and invoke
`onLogoutSuccess` unconditionally.  The optional redirect is a navigation
and not modelled. -/
def logout (w : World) : World :=
  { w with
    localToken := none
    state := initialAuthState
    logoutSuccessCount := w.logoutSuccessCount + 1 }

/-- Query parameters of the callback URL (`token`, `state`, `error`), each
possibly absent. -/
structure CallbackUrl where
  token : Option String
  state : Option String
  error : Option String
deriving DecidableEq, Repr

/-- The CSRF read-delete-compare unit of `handleCallback`
(AuthContext.tsx 187-201): read the stored value, remove it unconditionally,
and report whether the URL state parameter strictly equals the value read.
Note the source comparison is `stateParam !== storedState`, so two `null`
values compare equal. -/
def verifyAndConsume (candidate stored : Option String) :
    Bool × Option String :=
  (candidate == stored, none)

/-- Embedding of `handleCallback` from `src/src/AuthContext.tsx` (lines 182-208): read the
URL parameters, consume the stored CSRF state, then in order: provider
error, state comparison, token materialization / no-token error.  The error
branches merge into the previous state (`setState(prev => ...)`). -/
def handleCallback (decode : String → Option JwtPayload) (url : CallbackUrl)
    (w : World) : World :=
  let vc := verifyAndConsume url.state w.oauthState
  let w1 : World := { w with oauthState := vc.2 }
  if truthy url.error then
    { w1 with state := { w1.state with error := url.error } }
  else if vc.1 = false then
    { w1 with state := { w1.state with error := some "Invalid state parameter" } }
  else if truthy url.token then
    decodeAndSetToken decode (url.token.getD "") false w1
  else
    { w1 with state := { w1.state with error := some "No token received" } }

/-- The session-affecting operations of the component: mount-time restore,
materialization from a raw token, callback handling, and logout. -/
inductive AuthOp where
  | restoreOp : AuthOp
  | materializeOp (token : String) (skipCallback : Bool) : AuthOp
  | callbackOp (url : CallbackUrl) : AuthOp
  | logoutOp : AuthOp
deriving DecidableEq, Repr

/-- Interpretation of one operation on the world. -/
def applyOp (decode : String → Option JwtPayload) : AuthOp → World → World
  | .restoreOp, w => restore decode w
  | .materializeOp t sc, w => decodeAndSetToken decode t sc w
  | .callbackOp url, w => handleCallback decode url w
  | .logoutOp, w => logout w

/-- Run a sequence of operations from a starting world. -/
def runOps (decode : String → Option JwtPayload) :
    List AuthOp → World → World
  | [], w => w
  | op :: ops, w => runOps decode ops (applyOp decode op w)

/-- The Session invariant of the spec: authenticated sessions carry a user
and a token; unauthenticated sessions carry neither. -/
def sessionConsistent (s : AuthState) : Prop :=
  (s.isAuthenticated = true → s.user ≠ none ∧ s.token ≠ none) ∧
  (s.isAuthenticated = false → s.user = none ∧ s.token = none)

/-- A process restart: in-memory React state and session-scoped storage are
reset, durable `localStorage` survives.  The cumulative side-effect counters
are carried so that "invoked exactly once overall" can be stated. -/
def simulateRestart (w : World) : World :=
  { initialWorld with
    localToken := w.localToken
    loginSuccessCount := w.loginSuccessCount
    logoutSuccessCount := w.logoutSuccessCount }

/-! ### The modular draft: `src/src/useAuthCoreState.ts` -/

/-- State of the `useAuthCoreState` hook: React state, durable storage, the
`lastProcessedTokenRef` ref, and side-effect counters.  The
`isProcessingAuthCallbackRef` flag is set and cleared inside the same
invocation of `saveTokenAndUser`, so it is not a field here. -/
structure CoreWorld where
  state : AuthState
  localToken : Option String
  lastProcessedToken : Option String
  loginSuccessCount : Nat
  logoutSuccessCount : Nat
deriving DecidableEq, Repr

/-- Initial hook state (useAuthCoreState.ts 43-49): `isLoading` starts true
pending the initial token check. -/
def initialCoreWorld : CoreWorld :=
  { state :=
      { isAuthenticated := false, user := none, isLoading := true
        error := none, token := none }
    localToken := none, lastProcessedToken := none
    loginSuccessCount := 0, logoutSuccessCount := 0 }

/-- The user built in `saveTokenAndUser` (useAuthCoreState.ts 70-78):
`sub` is destructured out and `id: sub` comes after the spread of the
remaining claims, so `id` is always the `sub` claim (possibly absent). -/
def mkUserFromClaims (p : JwtPayload) : AuthUser :=
  { id := p.sub
    sub := none
    email := p.email
    name := p.name
    picture := p.picture
    extra := p.extra }

/-- Embedding of `saveTokenAndUser` from `src/src/useAuthCoreState.ts` (lines 51-110).
The duplicate-token guard compares against the synchronously updated
`lastProcessedTokenRef`.  Note `localStorage.setItem` happens before the
decode, so the token is persisted even when decoding then fails; and
`onLoginSuccess` is invoked on every successful decode regardless of the
`fromAuthCallback` argument. -/
def saveTokenAndUser (decode : String → Option JwtPayload)
    (jwtToken : String) (fromAuthCallback : Bool) (w : CoreWorld) :
    CoreWorld :=
  if w.lastProcessedToken = some jwtToken then w
  else
    let w1 : CoreWorld := { w with localToken := some jwtToken }
    match decode jwtToken with
    | some claims =>
      let user := mkUserFromClaims claims
      { w1 with
        state :=
          { isAuthenticated := true, user := some user, isLoading := false
            error := none, token := some jwtToken }
        lastProcessedToken := some jwtToken
        loginSuccessCount := w1.loginSuccessCount + 1 }
    | none =>
      { w1 with
        state := { w1.state with
                   isLoading := false
                   error := some "Authentication processing failed. Invalid token format." } }

/-! ### Concrete decoder fixtures -/

/-- Payload of the well-formed sample token: subject `u1`, email `a@b.com`,
no top-level `id` claim. -/
def samplePayload : JwtPayload :=
  { sub := some "u1", id := none, email := some "a@b.com"
    name := none, picture := none, extra := [] }

/-- A sample decoder: accepts exactly the string `validJWT`, rejecting
everything else as malformed. -/
def sampleDecode : String → Option JwtPayload :=
  fun s => if s = "validJWT" then some samplePayload else none

/-- Payload with no subject claim but a top-level `id` claim. -/
def noSubPayload : JwtPayload :=
  { sub := none, id := some "x", email := none
    name := none, picture := none, extra := [] }

/-- A decoder accepting exactly `tok8`, whose payload lacks `sub`. -/
def decodeNoSub : String → Option JwtPayload :=
  fun s => if s = "tok8" then some noSubPayload else none

/-- A world with an established session for the sample token: the state one
reaches by materializing `validJWT` as a new login from the initial world. -/
def loggedInWorld : World :=
  { state :=
      { isAuthenticated := true
        user := some (mkUserFromPayload samplePayload)
        isLoading := false
        error := none
        token := some "validJWT" }
    localToken := some "validJWT"
    oauthState := none
    loginSuccessCount := 1
    logoutSuccessCount := 0 }

/-! ### Helper lemmas -/

/-- Materialization never touches the session-scoped CSRF storage. -/
theorem decodeAndSetToken_oauthState (decode : String → Option JwtPayload)
    (t : String) (sc : Bool) (w : World) :
    (decodeAndSetToken decode t sc w).oauthState = w.oauthState := by
  unfold decodeAndSetToken
  split
  · rfl
  · split
    · split <;> rfl
    · rfl

/-- Materialization preserves the Session consistency invariant. -/
theorem decodeAndSetToken_consistent (decode : String → Option JwtPayload)
    (t : String) (sc : Bool) (w : World)
    (h : sessionConsistent w.state) :
    sessionConsistent (decodeAndSetToken decode t sc w).state := by
  unfold decodeAndSetToken
  split
  · exact h
  · split
    · split <;> simp [sessionConsistent]
    · obtain ⟨h1, h2⟩ := h
      exact ⟨fun ha => h1 ha, fun ha => h2 ha⟩

/-- Callback handling preserves the Session consistency invariant. -/
theorem handleCallback_consistent (decode : String → Option JwtPayload)
    (url : CallbackUrl) (w : World)
    (h : sessionConsistent w.state) :
    sessionConsistent (handleCallback decode url w).state := by
  obtain ⟨h1, h2⟩ := h
  simp only [handleCallback, verifyAndConsume]
  repeat' split
  all_goals
    first
      | exact decodeAndSetToken_consistent decode _ false _ ⟨h1, h2⟩
      | exact ⟨fun ha => h1 ha, fun ha => h2 ha⟩

/-- The mount-time restore preserves the Session consistency invariant. -/
theorem restore_consistent (decode : String → Option JwtPayload)
    (w : World) (h : sessionConsistent w.state) :
    sessionConsistent (restore decode w).state := by
  unfold restore
  split
  · split
    · exact h
    · exact decodeAndSetToken_consistent decode _ true w h
  · exact h

/-- Every single operation preserves the Session consistency invariant. -/
theorem applyOp_consistent (decode : String → Option JwtPayload)
    (op : AuthOp) (w : World) (h : sessionConsistent w.state) :
    sessionConsistent (applyOp decode op w).state := by
  cases op with
  | restoreOp => exact restore_consistent decode w h
  | materializeOp t sc => exact decodeAndSetToken_consistent decode t sc w h
  | callbackOp url => exact handleCallback_consistent decode url w h
  | logoutOp =>
    exact ⟨fun ha => by simp [applyOp, logout, initialAuthState] at ha,
           fun _ => by simp [applyOp, logout, initialAuthState]⟩

/-! ### Claims -/

/-- C1: the claim says a callback URL carrying a token but no `state`
parameter, processed when no CSRF state is stored, is rejected and never
establishes a session.  The code violates this: `handleCallback` compares
`stateParam !== storedState`, and `null === null` passes, so the token is
materialized into an authenticated session.  This theorem evaluates the
handler at that input: starting unauthenticated with empty storages, a URL
with a decodable token, no state parameter and no error yields an
authenticated session holding that token, with `onLoginSuccess` invoked. -/
theorem callback_missing_state_authenticates :
    (handleCallback sampleDecode
      { token := some "validJWT", state := none, error := none }
      initialWorld).state.isAuthenticated = true ∧
    (handleCallback sampleDecode
      { token := some "validJWT", state := none, error := none }
      initialWorld).state.token = some "validJWT" ∧
    (handleCallback sampleDecode
      { token := some "validJWT", state := none, error := none }
      initialWorld).state.error = none ∧
    (handleCallback sampleDecode
      { token := some "validJWT", state := none, error := none }
      initialWorld).loginSuccessCount = 1 := by
  refine ⟨rfl, rfl, rfl, rfl⟩

/-- C2: the stored CSRF state is deleted unconditionally by every callback
run, and re-verifying any non-null candidate `S` against the consumed
(empty) storage always fails, since `some S` never strictly equals
`null`. -/
theorem csrf_state_single_use (decode : String → Option JwtPayload)
    (url : CallbackUrl) (w : World) (S : String) (c : Option String) :
    (handleCallback decode url w).oauthState = none ∧
    (verifyAndConsume c (some S)).2 = none ∧
    (verifyAndConsume (some S) (verifyAndConsume c (some S)).2).1 = false := by
  refine ⟨?_, rfl, rfl⟩
  simp only [handleCallback, verifyAndConsume]
  repeat' split
  all_goals
    first
      | rfl
      | rw [decodeAndSetToken_oauthState]

/-- C3 counterexample: the claim asserts that a callback URL with
`error=access_denied` and matching state always leaves the session
unauthenticated.  But the provider-error branch of `handleCallback` merges
only `error` into the previous state, so a previously authenticated session
stays authenticated: here a logged-in user processes such a callback and
keeps `isAuthenticated = true` with user and token intact. -/
theorem callback_provider_error_keeps_auth :
    (handleCallback sampleDecode
      { token := none, state := some "X", error := some "access_denied" }
      { loggedInWorld with oauthState := some "X" }).state.isAuthenticated
      = true ∧
    (handleCallback sampleDecode
      { token := none, state := some "X", error := some "access_denied" }
      { loggedInWorld with oauthState := some "X" }).state.error
      = some "access_denied" ∧
    (handleCallback sampleDecode
      { token := none, state := some "X", error := some "access_denied" }
      { loggedInWorld with oauthState := some "X" }).state.token
      = some "validJWT" := by
  refine ⟨rfl, rfl, rfl⟩

/-- C3 (amended): given a callback URL with `error=access_denied` and
`state=X` while the stored CSRF state is `X`, and a pre-callback session
that is unauthenticated with no user and no token (the fresh-page-load
situation), the handler reports exactly `access_denied` (not a CSRF
mismatch), consumes the stored state, and the resulting session is
unauthenticated with user and token absent. -/
theorem callback_provider_error_rejected (decode : String → Option JwtPayload)
    (url : CallbackUrl) (w : World) (X : String)
    (hs : w.oauthState = some X)
    (herr : url.error = some "access_denied")
    (hst : url.state = some X)
    (hauth : w.state.isAuthenticated = false)
    (huser : w.state.user = none)
    (htok : w.state.token = none) :
    (handleCallback decode url w).state.error = some "access_denied" ∧
    (handleCallback decode url w).oauthState = none ∧
    (handleCallback decode url w).state.isAuthenticated = false ∧
    (handleCallback decode url w).state.user = none ∧
    (handleCallback decode url w).state.token = none := by
  have hne : "access_denied".isEmpty = false := by decide
  simp [handleCallback, verifyAndConsume, herr, truthy, hauth, huser, htok, hne]

/-- Witness for C3 (amended) at a concrete input. -/
theorem callback_provider_error_rejected_witness :
    (handleCallback sampleDecode
      { token := none, state := some "X", error := some "access_denied" }
      { initialWorld with oauthState := some "X" }).state.error
        = some "access_denied" ∧
    (handleCallback sampleDecode
      { token := none, state := some "X", error := some "access_denied" }
      { initialWorld with oauthState := some "X" }).oauthState = none ∧
    (handleCallback sampleDecode
      { token := none, state := some "X", error := some "access_denied" }
      { initialWorld with oauthState := some "X" }).state.isAuthenticated
        = false ∧
    (handleCallback sampleDecode
      { token := none, state := some "X", error := some "access_denied" }
      { initialWorld with oauthState := some "X" }).state.user = none ∧
    (handleCallback sampleDecode
      { token := none, state := some "X", error := some "access_denied" }
      { initialWorld with oauthState := some "X" }).state.token = none :=
  callback_provider_error_rejected sampleDecode
    { token := none, state := some "X", error := some "access_denied" }
    { initialWorld with oauthState := some "X" } "X"
    rfl rfl rfl rfl rfl rfl

/-- C7: for every decoder and every sequence of session operations (restore,
materialize, callback handling, logout) starting from the initial state,
the reachable session satisfies the invariant: authenticated implies user
and token present, unauthenticated implies both absent. -/
theorem session_invariant (decode : String → Option JwtPayload)
    (ops : List AuthOp) :
    sessionConsistent (runOps decode ops initialWorld).state := by
  have hrun : ∀ (l : List AuthOp) (w : World), sessionConsistent w.state →
      sessionConsistent (runOps decode l w).state := by
    intro l
    induction l with
    | nil => intro w h; exact h
    | cons op ops ih =>
      intro w h
      exact ih (applyOp decode op w) (applyOp_consistent decode op w h)
  refine hrun ops initialWorld ?_
  exact ⟨fun ha => by simp [initialWorld, initialAuthState] at ha,
         fun _ => by simp [initialWorld, initialAuthState]⟩

/-- C4: materializing the same decodable token twice in succession through
`saveTokenAndUser` (the callback path, `fromAuthCallback = true`) invokes
the login-success side-effect exactly once: the `lastProcessedTokenRef`
guard makes the second call a no-op returning the world unchanged. -/
theorem materialize_idempotent (decode : String → Option JwtPayload)
    (T : String) (p : JwtPayload) (hdec : decode T = some p) :
    saveTokenAndUser decode T true
        (saveTokenAndUser decode T true initialCoreWorld)
      = saveTokenAndUser decode T true initialCoreWorld ∧
    (saveTokenAndUser decode T true initialCoreWorld).loginSuccessCount
      = 1 := by
  have h1 : saveTokenAndUser decode T true initialCoreWorld =
      { state :=
          { isAuthenticated := true, user := some (mkUserFromClaims p)
            isLoading := false, error := none, token := some T }
        localToken := some T, lastProcessedToken := some T
        loginSuccessCount := 1, logoutSuccessCount := 0 } := by
    simp [saveTokenAndUser, initialCoreWorld, hdec]
  rw [h1]
  exact ⟨by simp [saveTokenAndUser], rfl⟩

/-- Witness for C4: the sample token decodes, and the double call performs
the side-effect once. -/
theorem materialize_idempotent_witness :
    saveTokenAndUser sampleDecode "validJWT" true
        (saveTokenAndUser sampleDecode "validJWT" true initialCoreWorld)
      = saveTokenAndUser sampleDecode "validJWT" true initialCoreWorld ∧
    (saveTokenAndUser sampleDecode "validJWT" true
        initialCoreWorld).loginSuccessCount = 1 :=
  materialize_idempotent sampleDecode "validJWT" samplePayload rfl

/-- C5: `materialize(T)` as a new login, a simulated restart, then the
mount-time restore yields a session with the same user (hence the same
`user.id`) and `token = T`, while the login-success side-effect has run
exactly once overall — the restore path passes `skipCallback = true`. -/
theorem restore_passive (decode : String → Option JwtPayload)
    (T : String) (p : JwtPayload)
    (hdec : decode T = some p) (hne : T.isEmpty = false) :
    (restore decode (simulateRestart
        (decodeAndSetToken decode T false initialWorld))).loginSuccessCount
      = 1 ∧
    (restore decode (simulateRestart
        (decodeAndSetToken decode T false initialWorld))).state.token
      = some T ∧
    (restore decode (simulateRestart
        (decodeAndSetToken decode T false initialWorld))).state.user
      = (decodeAndSetToken decode T false initialWorld).state.user ∧
    (restore decode (simulateRestart
        (decodeAndSetToken decode T false initialWorld))).state.user
      = some (mkUserFromPayload p) := by
  simp [restore, simulateRestart, decodeAndSetToken, initialWorld,
        initialAuthState, hdec, hne]

/-- Witness for C5 at the sample token. -/
theorem restore_passive_witness :
    (restore sampleDecode (simulateRestart
        (decodeAndSetToken sampleDecode "validJWT" false
          initialWorld))).loginSuccessCount = 1 ∧
    (restore sampleDecode (simulateRestart
        (decodeAndSetToken sampleDecode "validJWT" false
          initialWorld))).state.token = some "validJWT" ∧
    (restore sampleDecode (simulateRestart
        (decodeAndSetToken sampleDecode "validJWT" false
          initialWorld))).state.user
      = (decodeAndSetToken sampleDecode "validJWT" false
          initialWorld).state.user ∧
    (restore sampleDecode (simulateRestart
        (decodeAndSetToken sampleDecode "validJWT" false
          initialWorld))).state.user
      = some (mkUserFromPayload samplePayload) :=
  restore_passive sampleDecode "validJWT" samplePayload rfl rfl

/-- C6 counterexample: the claim asserts that after `restore()` on an
undecodable stored value, durable storage holds no token.  The code never
clears storage on a decode failure: restoring with stored value `garbage`
yields the unauthenticated error session, but `garbage` is still in durable
storage afterwards. -/
theorem restore_bad_token_storage_kept :
    (restore sampleDecode
      { initialWorld with localToken := some "garbage" }).state.isAuthenticated
      = false ∧
    (restore sampleDecode
      { initialWorld with localToken := some "garbage" }).state.error
      = some "Invalid token format" ∧
    (restore sampleDecode
      { initialWorld with localToken := some "garbage" }).localToken
      = some "garbage" :=
  ⟨rfl, rfl, rfl⟩

/-- C6 (amended): for every non-empty durable-storage value the decoder
rejects, `restore()` returns `authenticated = false` with a non-null error,
but the bad value remains in durable storage — it is not cleared. -/
theorem restore_decode_failure (decode : String → Option JwtPayload)
    (s : String) (hdec : decode s = none) (hne : s.isEmpty = false) :
    (restore decode
      { initialWorld with localToken := some s }).state.isAuthenticated
      = false ∧
    (restore decode
      { initialWorld with localToken := some s }).state.error
      = some "Invalid token format" ∧
    (restore decode
      { initialWorld with localToken := some s }).localToken = some s := by
  simp [restore, decodeAndSetToken, initialWorld, initialAuthState, hdec, hne]

/-- Witness for C6 (amended) at the concrete bad value. -/
theorem restore_decode_failure_witness :
    (restore sampleDecode
      { initialWorld with localToken := some "garbage" }).state.isAuthenticated
      = false ∧
    (restore sampleDecode
      { initialWorld with localToken := some "garbage" }).state.error
      = some "Invalid token format" ∧
    (restore sampleDecode
      { initialWorld with localToken := some "garbage" }).localToken
      = some "garbage" :=
  restore_decode_failure sampleDecode "garbage" rfl rfl

/-- C8 counterexample: the claim asserts materialize fails whenever the
decoded payload lacks a subject claim.  The code performs no such check:
a token decoding to a payload with no `sub` but a top-level `id` claim
authenticates without error, the user id taken from that `id` claim. -/
theorem materialize_missing_sub_succeeds :
    (decodeAndSetToken decodeNoSub "tok8" false
      initialWorld).state.isAuthenticated = true ∧
    (decodeAndSetToken decodeNoSub "tok8" false initialWorld).state.error
      = none ∧
    (decodeAndSetToken decodeNoSub "tok8" false initialWorld).state.user
      = some { id := some "x", sub := none, email := none, name := none
               picture := none, extra := [] } :=
  ⟨rfl, rfl, rfl⟩

/-- C8 (amended): materialize performs no subject-claim check — every token
the decoder accepts authenticates with no error, the user built from the
payload, `id` being `decoded.sub || decoded.id` overridden by a top-level
`id` claim when present; so on success `user.id` equals the subject claim
whenever the payload has no top-level `id` claim and the subject is
non-empty. -/
theorem materialize_no_subject_check (decode : String → Option JwtPayload)
    (t : String) (sc : Bool) (w : World) (p : JwtPayload)
    (hdec : decode t = some p)
    (hguard : ¬(w.state.token = some t ∧ w.state.isAuthenticated = true)) :
    (decodeAndSetToken decode t sc w).state.isAuthenticated = true ∧
    (decodeAndSetToken decode t sc w).state.error = none ∧
    (decodeAndSetToken decode t sc w).state.user
      = some (mkUserFromPayload p) ∧
    (p.id = none → ∀ s, p.sub = some s → s.isEmpty = false →
      (mkUserFromPayload p).id = some s) := by
  refine ⟨?_, ?_, ?_, ?_⟩
  · unfold decodeAndSetToken
    rw [if_neg hguard]
    simp only [hdec]
    split <;> rfl
  · unfold decodeAndSetToken
    rw [if_neg hguard]
    simp only [hdec]
    split <;> rfl
  · unfold decodeAndSetToken
    rw [if_neg hguard]
    simp only [hdec]
    split <;> rfl
  · intro hid s hsub hs
    simp [mkUserFromPayload, jsOr, hid, hsub, hs]

/-- Witness for C8 (amended) at the sample token (whose payload has
`sub = u1` and no top-level `id` claim). -/
theorem materialize_no_subject_check_witness :
    (decodeAndSetToken sampleDecode "validJWT" false
      initialWorld).state.isAuthenticated = true ∧
    (decodeAndSetToken sampleDecode "validJWT" false
      initialWorld).state.error = none ∧
    (decodeAndSetToken sampleDecode "validJWT" false initialWorld).state.user
      = some (mkUserFromPayload samplePayload) ∧
    (samplePayload.id = none → ∀ s, samplePayload.sub = some s →
      s.isEmpty = false → (mkUserFromPayload samplePayload).id = some s) :=
  materialize_no_subject_check sampleDecode "validJWT" false initialWorld
    samplePayload rfl (by simp [initialWorld, initialAuthState])

/-- C9 counterexample: the claim asserts the logout side-effect is not
invoked when there is nothing to clear.  The code calls `onLogoutSuccess`
unconditionally: logging out of the pristine empty session still invokes it
(the counter moves from 0 to 1), though the returned shape is the canonical
empty one. -/
theorem logout_empty_invokes_side_effect :
    (logout initialWorld).logoutSuccessCount = 1 ∧
    (logout initialWorld).state = initialAuthState ∧
    (logout initialWorld).localToken = none :=
  ⟨rfl, rfl, rfl⟩

/-- C9 (amended): `logout` on an already-empty session leaves the session
at the canonical empty shape (authenticated = false, user, token and error
null, not loading) and empty storage, but the configured logout side-effect
is still invoked — it runs unconditionally on every call. -/
theorem logout_empty_returns_empty (w : World)
    (h : w.state = initialAuthState) :
    (logout w).state = initialAuthState ∧
    (logout w).state.isAuthenticated = false ∧
    (logout w).state.user = none ∧
    (logout w).state.token = none ∧
    (logout w).state.isLoading = false ∧
    (logout w).state.error = none ∧
    (logout w).localToken = none ∧
    (logout w).logoutSuccessCount = w.logoutSuccessCount + 1 := by
  simp [logout, initialAuthState]

/-- Witness for C9 (amended) at the pristine empty world. -/
theorem logout_empty_returns_empty_witness :
    (logout initialWorld).state = initialAuthState ∧
    (logout initialWorld).state.isAuthenticated = false ∧
    (logout initialWorld).state.user = none ∧
    (logout initialWorld).state.token = none ∧
    (logout initialWorld).state.isLoading = false ∧
    (logout initialWorld).state.error = none ∧
    (logout initialWorld).localToken = none ∧
    (logout initialWorld).logoutSuccessCount
      = initialWorld.logoutSuccessCount + 1 :=
  logout_empty_returns_empty initialWorld rfl

/-- C10: materializing a token the decoder rejects, while it differs from
the active session token, changes only `isLoading` (to false) and `error`
(to the failure message): `isAuthenticated`, `user` and `token` are exactly
those of the previous session, durable storage and the side-effect counter
are untouched — a failed re-materialization never logs the user out. -/
theorem materialize_failure_preserves_session
    (decode : String → Option JwtPayload) (t : String) (sc : Bool)
    (w : World) (hdec : decode t = none) (hne : w.state.token ≠ some t) :
    (decodeAndSetToken decode t sc w).state.isAuthenticated
      = w.state.isAuthenticated ∧
    (decodeAndSetToken decode t sc w).state.user = w.state.user ∧
    (decodeAndSetToken decode t sc w).state.token = w.state.token ∧
    (decodeAndSetToken decode t sc w).state.isLoading = false ∧
    (decodeAndSetToken decode t sc w).state.error
      = some "Invalid token format" ∧
    (decodeAndSetToken decode t sc w).localToken = w.localToken ∧
    (decodeAndSetToken decode t sc w).loginSuccessCount
      = w.loginSuccessCount := by
  have hguard : ¬(w.state.token = some t ∧ w.state.isAuthenticated = true) :=
    fun hc => hne hc.1
  unfold decodeAndSetToken
  rw [if_neg hguard]
  simp [hdec]

/-- Witness for C10: an authenticated session survives a failed
re-materialization of a malformed token. -/
theorem materialize_failure_preserves_session_witness :
    (decodeAndSetToken sampleDecode "garbage" false
      loggedInWorld).state.isAuthenticated
      = loggedInWorld.state.isAuthenticated ∧
    (decodeAndSetToken sampleDecode "garbage" false loggedInWorld).state.user
      = loggedInWorld.state.user ∧
    (decodeAndSetToken sampleDecode "garbage" false loggedInWorld).state.token
      = loggedInWorld.state.token ∧
    (decodeAndSetToken sampleDecode "garbage" false
      loggedInWorld).state.isLoading = false ∧
    (decodeAndSetToken sampleDecode "garbage" false loggedInWorld).state.error
      = some "Invalid token format" ∧
    (decodeAndSetToken sampleDecode "garbage" false loggedInWorld).localToken
      = loggedInWorld.localToken ∧
    (decodeAndSetToken sampleDecode "garbage" false
      loggedInWorld).loginSuccessCount = loggedInWorld.loginSuccessCount :=
  materialize_failure_preserves_session sampleDecode "garbage" false
    loggedInWorld rfl (by decide)

end AuthClient
